import Mathlib

/-!
Verification of the Link Resolver UI (src/src/App.tsx).

The application is a single React component.  Its logic lives in the
`handleDownload` submission handler: validate a non-empty (after trimming)
input, issue one GET request to a fixed endpoint with the trimmed input
percent-encoded as the `url` query parameter, branch on the JSON envelope
(`code`, `msg`, optional `data` holding `play`, `title`, `author.nickname`,
`cover`), and move a four-state status machine between
idle / loading / success / error.

We embed that handler as a pure function over an explicit component state,
with the outcome of the network call supplied as a parameter, and the URL
of every GET request the handler issues recorded in the result.
-/

namespace Tikop

/-- The fixed resolution endpoint (`API_ENDPOINT` in src/src/App.tsx). -/
def API_ENDPOINT : String := "https://www.tikwm.com/api/"

/-- The four values of the `DownloadState` union type in src/src/App.tsx. -/
inductive DownloadState where
  | idle
  | loading
  | success
  | error
deriving DecidableEq, Repr

/-- `TikTokResponse["data"]["author"]`: the author object of a parsed response. -/
structure Author where
  nickname : String
deriving DecidableEq, Repr

/-- `TikTokResponse["data"]`: the media payload of a parsed response. -/
structure TikTokData where
  play : String
  title : String
  author : Author
  cover : String
deriving DecidableEq, Repr

/-- The parsed JSON envelope (`TikTokResponse` in src/src/App.tsx);
`data` is optional in the source type, hence `Option` here. -/
structure TikTokResponse where
  code : Int
  msg : String
  data : Option TikTokData
deriving DecidableEq, Repr

/-- The component state: the four `useState` hooks of `App`
(`url`, `status`, `error`, `videoData`). -/
structure AppState where
  url : String
  status : DownloadState
  error : Option String
  videoData : Option TikTokData
deriving DecidableEq, Repr

/-- The initial state of the component: the four `useState` initialisers. -/
def initState : AppState :=
  { url := "", status := .idle, error := none, videoData := none }

/-- A character JavaScript string trimming removes: the WhiteSpace and
LineTerminator productions of ECMA-262 (ASCII whitespace, NBSP, BOM,
the Unicode space separators, and the line/paragraph separators). -/
def jsWhitespace (c : Char) : Bool :=
  let n := c.toNat
  n = 9 || n = 10 || n = 11 || n = 12 || n = 13 || n = 32 || n = 160 ||
  n = 5760 || (8192 ≤ n && n ≤ 8202) || n = 8232 || n = 8233 ||
  n = 8239 || n = 8287 || n = 12288 || n = 65279

/-- JavaScript `String.prototype.trim`: drop leading and trailing
whitespace characters. -/
def jsTrim (s : String) : String :=
  String.mk (((s.data.dropWhile jsWhitespace).reverse.dropWhile jsWhitespace).reverse)

/-- The characters `encodeURIComponent` leaves unescaped
(`uriUnescaped` of ECMA-262): ASCII alphanumerics and `- _ . ! ~ * ' ( )`. -/
def uriUnreserved (c : Char) : Bool :=
  c.isAlphanum || c = '-' || c = '_' || c = '.' || c = '!' || c = '~' ||
  c = '*' || c = Char.ofNat 39 || c = '(' || c = ')'

/-- The UTF-8 encoding of a single code point, as a list of byte values. -/
def utf8Bytes (c : Char) : List Nat :=
  let n := c.toNat
  if n < 128 then [n]
  else if n < 2048 then [192 + n / 64, 128 + n % 64]
  else if n < 65536 then [224 + n / 4096, 128 + (n / 64) % 64, 128 + n % 64]
  else [240 + n / 262144, 128 + (n / 4096) % 64, 128 + (n / 64) % 64, 128 + n % 64]

/-- Upper-case hexadecimal digit of a value below 16. -/
def hexDigit (n : Nat) : Char :=
  if n < 10 then Char.ofNat (48 + n) else Char.ofNat (55 + n)

/-- A percent-escape `%HH` for one byte value. -/
def percentByte (b : Nat) : String :=
  String.mk ['%', hexDigit (b / 16), hexDigit (b % 16)]

/-- `encodeURIComponent` on one character: kept verbatim when unreserved,
otherwise each UTF-8 byte is percent-escaped. -/
def encodeChar (c : Char) : String :=
  if uriUnreserved c then String.mk [c] else String.join ((utf8Bytes c).map percentByte)

/-- JavaScript `encodeURIComponent` (for strings without lone surrogates,
which Lean strings cannot represent anyway). -/
def encodeURIComponent (s : String) : String :=
  String.join (s.data.map encodeChar)

/-- The result of `response.json()` inside the try block: either the promise
rejects (a parse failure; `isError` records whether the rejection value is an
`Error` instance, `message` its message) or it yields a parsed envelope. -/
inductive JsonResult where
  | parseFailure (isError : Bool) (message : String)
  | parsed (payload : TikTokResponse)
deriving DecidableEq, Repr

/-- The outcome of the `fetch` call: the promise rejects (a transport
failure, carrying the rejection value's `Error`-ness and message), or it
resolves with an HTTP `ok` flag and a body. -/
inductive FetchOutcome where
  | rejected (isError : Bool) (message : String)
  | resolved (ok : Bool) (body : JsonResult)
deriving DecidableEq, Repr

/-- The `catch` block of `handleDownload`: display the caught value's
message when it is an `Error` instance, else the generic fallback, and
enter the `error` status. -/
def catchState (s : AppState) (isError : Bool) (message : String) : AppState :=
  { s with
    error := some (if isError then message else "Unexpected error. Please try again later."),
    status := .error }

/-- JavaScript `a || b` on strings: `b` when `a` is falsy (empty), else `a`. -/
def jsOr (a b : String) : String :=
  if a = "" then b else a

/-- `!payload.data?.play`: true when `data` is absent or its `play` field
is falsy (the empty string). -/
def dataPlayFalsy (d : Option TikTokData) : Bool :=
  match d with
  | none => true
  | some d => d.play = ""

/-- The message thrown for a non-OK HTTP status in src/src/App.tsx. -/
def connectivityMsg : String :=
  "Failed to contact the download service. Please try again."

/-- The fallback message thrown for an API-reported failure. -/
def unableMsg : String :=
  "Unable to fetch the video. Make sure the link is public."

/-- The message shown for an empty (after trimming) input. -/
def emptyInputMsg : String :=
  "Please paste a TikTok link."

/-- The body of the try/catch of `handleDownload`, applied to the state as
it stands when the network outcome arrives.  Thrown errors (`throw new
Error(...)`) are `Error` instances with the thrown message, so those paths
feed `catchState` with `isError := true`. -/
def applyOutcome (s : AppState) (o : FetchOutcome) : AppState :=
  match o with
  | .rejected isErr m => catchState s isErr m
  | .resolved ok body =>
    if !ok then
      catchState s true connectivityMsg
    else
      match body with
      | .parseFailure isErr m => catchState s isErr m
      | .parsed payload =>
        if payload.code ≠ 0 ∨ dataPlayFalsy payload.data then
          catchState s true (jsOr payload.msg unableMsg)
        else
          { s with videoData := payload.data, status := .success }

/-- The state set by the early-return branch for an empty trimmed input. -/
def emptyInputState (s : AppState) : AppState :=
  { s with error := some emptyInputMsg, status := .error }

/-- The state after `setStatus("loading"); setError(null); setVideoData(null)`,
before the fetch is issued. -/
def loadingState (s : AppState) : AppState :=
  { s with status := .loading, error := none, videoData := none }

/-- The URL of the GET request `handleDownload` issues for a given input. -/
def requestUrl (input : String) : String :=
  API_ENDPOINT ++ "?url=" ++ encodeURIComponent (jsTrim input)

/-- A full run of the submission handler: the final component state plus
the URLs of the GET requests it issued. -/
structure SubmitResult where
  state : AppState
  requests : List String
deriving DecidableEq, Repr

/-- `handleDownload` of src/src/App.tsx as a pure function: given the current
component state and the outcome the network would deliver, the final state
and the list of issued requests. -/
def handleDownload (s : AppState) (o : FetchOutcome) : SubmitResult :=
  if jsTrim s.url = "" then
    { state := emptyInputState s, requests := [] }
  else
    { state := applyOutcome (loadingState s) o, requests := [requestUrl s.url] }

/-- The event-level transition relation of the UI.  Typing edits the input
(the field is disabled while loading); a form submission runs the handler up
to its first await (the input and submit button are disabled while loading,
so submissions happen only outside `loading`); the outcome of the in-flight
call then resolves the `loading` state. -/
inductive Step : AppState → AppState → Prop where
  | setUrl (s : AppState) (v : String) :
      s.status ≠ .loading → Step s { s with url := v }
  | submitEmpty (s : AppState) :
      s.status ≠ .loading → jsTrim s.url = "" → Step s (emptyInputState s)
  | submitLoad (s : AppState) :
      s.status ≠ .loading → jsTrim s.url ≠ "" → Step s (loadingState s)
  | outcome (s : AppState) (o : FetchOutcome) :
      s.status = .loading → Step s (applyOutcome s o)

/-- A state the UI can reach from its initial state. -/
inductive Reachable : AppState → Prop where
  | init : Reachable initState
  | step (s t : AppState) : Reachable s → Step s t → Reachable t

/-! ### Helper lemmas -/

/-- A string all of whose characters are JavaScript whitespace trims to the
empty string. -/
theorem jsTrim_eq_empty_of_allWhitespace (s : String)
    (h : ∀ c ∈ s.data, jsWhitespace c) : jsTrim s = "" := by
  unfold jsTrim
  rw [List.dropWhile_eq_nil_iff.mpr h]
  rfl

/-- A status other than `loading` is `idle`, `error` or `success`. -/
theorem status_ne_loading_cases (st : DownloadState) (h : st ≠ .loading) :
    st = .idle ∨ st = .error ∨ st = .success := by
  cases st <;> simp_all

/-- Every way the try/catch body can end: either the `error` status with a
message set, or the `success` status with a stored record whose `play` field
is non-empty. -/
theorem applyOutcome_shape (s : AppState) (o : FetchOutcome) :
    ((applyOutcome s o).status = .error ∧ (applyOutcome s o).error.isSome) ∨
    ((applyOutcome s o).status = .success ∧
      ∃ d, (applyOutcome s o).videoData = some d ∧ d.play ≠ "") := by
  cases o with
  | rejected isErr m =>
    left
    simp [applyOutcome, catchState]
  | resolved ok body =>
    cases ok with
    | false =>
      left
      simp [applyOutcome, catchState]
    | true =>
      cases body with
      | parseFailure isErr m =>
        left
        simp [applyOutcome, catchState]
      | parsed payload =>
        by_cases hc : payload.code ≠ 0 ∨ dataPlayFalsy payload.data
        · left
          simp [applyOutcome, hc, catchState]
        · right
          push_neg at hc
          obtain ⟨hcode, hfalsy⟩ := hc
          cases hd : payload.data with
          | none => rw [hd] at hfalsy; simp [dataPlayFalsy] at hfalsy
          | some d =>
            rw [hd] at hfalsy
            simp [dataPlayFalsy] at hfalsy
            refine ⟨?_, d, ?_, hfalsy⟩ <;>
              simp [applyOutcome, hcode, hd, dataPlayFalsy, hfalsy]

/-! ### Claim theorems -/

/-- C1: for every fetched response whose JSON body has `code = 0` and a
non-empty `data.play`, submit reaches the `success` state with a stored
record whose play URL, title, author handle and cover image URL equal the
response's `play`, `title`, `author.nickname` and `cover` verbatim. -/
theorem C1_success_verbatim (s : AppState) (payload : TikTokResponse) (d : TikTokData)
    (hurl : jsTrim s.url ≠ "") (hcode : payload.code = 0)
    (hdata : payload.data = some d) (hplay : d.play ≠ "") :
    (handleDownload s (.resolved true (.parsed payload))).state.status = .success ∧
    (handleDownload s (.resolved true (.parsed payload))).state.videoData =
      some ⟨d.play, d.title, ⟨d.author.nickname⟩, d.cover⟩ := by
  simp [handleDownload, hurl, applyOutcome, hcode, hdata, dataPlayFalsy, hplay]

/-- C1 witness: the spec's success scenario, run concretely. -/
theorem C1_success_verbatim_witness :
    jsTrim "https://www.tiktok.com/@user/video/1" ≠ "" ∧
    ((handleDownload ⟨"https://www.tiktok.com/@user/video/1", .idle, none, none⟩
        (.resolved true (.parsed ⟨0, "",
          some ⟨"https://cdn/x.mp4", "T", ⟨"user"⟩, "https://cdn/c.jpg"⟩⟩))).state.status
        = .success ∧
     (handleDownload ⟨"https://www.tiktok.com/@user/video/1", .idle, none, none⟩
        (.resolved true (.parsed ⟨0, "",
          some ⟨"https://cdn/x.mp4", "T", ⟨"user"⟩, "https://cdn/c.jpg"⟩⟩))).state.videoData
        = some ⟨"https://cdn/x.mp4", "T", ⟨"user"⟩, "https://cdn/c.jpg"⟩) :=
  ⟨by decide,
    C1_success_verbatim ⟨"https://www.tiktok.com/@user/video/1", .idle, none, none⟩
      ⟨0, "", some ⟨"https://cdn/x.mp4", "T", ⟨"user"⟩, "https://cdn/c.jpg"⟩⟩
      ⟨"https://cdn/x.mp4", "T", ⟨"user"⟩, "https://cdn/c.jpg"⟩
      (by decide) rfl rfl (by decide)⟩

/-- C2 counterexample: on the empty input the handler shows
"Please paste a TikTok link.", not the claimed "Please paste a link.". -/
theorem C2_empty_counterexample :
    (handleDownload initState (.rejected true "ignored")).state.status = .error ∧
    (handleDownload initState (.rejected true "ignored")).requests = [] ∧
    (handleDownload initState (.rejected true "ignored")).state.error =
      some "Please paste a TikTok link." ∧
    (handleDownload initState (.rejected true "ignored")).state.error ≠
      some "Please paste a link." := by
  decide

/-- C2 (amended): for every input that is empty or consists only of
whitespace, submit transitions to the `error` state with message
"Please paste a TikTok link." and performs no network call. -/
theorem C2_empty_input (s : AppState) (o : FetchOutcome)
    (h : ∀ c ∈ s.url.data, jsWhitespace c) :
    (handleDownload s o).state.status = .error ∧
    (handleDownload s o).state.error = some "Please paste a TikTok link." ∧
    (handleDownload s o).requests = [] := by
  have he : jsTrim s.url = "" := jsTrim_eq_empty_of_allWhitespace s.url h
  simp [handleDownload, he, emptyInputState, emptyInputMsg]

/-- C2 witness: a whitespace-only input, run concretely. -/
theorem C2_empty_input_witness :
    (∀ c ∈ (" " : String).data, jsWhitespace c) ∧
    ((handleDownload ⟨" ", .idle, none, none⟩ (.rejected true "x")).state.status = .error ∧
     (handleDownload ⟨" ", .idle, none, none⟩ (.rejected true "x")).state.error =
       some "Please paste a TikTok link." ∧
     (handleDownload ⟨" ", .idle, none, none⟩ (.rejected true "x")).requests = []) :=
  ⟨by decide, C2_empty_input ⟨" ", .idle, none, none⟩ (.rejected true "x") (by decide)⟩

/-- C3 counterexample: a rejected fetch displays the rejection error's own
message ("boom" here), not the generic connectivity message. -/
theorem C3_reject_counterexample :
    (handleDownload ⟨"x", .idle, none, none⟩ (.rejected true "boom")).state.status = .error ∧
    (handleDownload ⟨"x", .idle, none, none⟩ (.rejected true "boom")).state.error =
      some "boom" ∧
    (handleDownload ⟨"x", .idle, none, none⟩ (.rejected true "boom")).state.error ≠
      some connectivityMsg := by
  decide

/-- C3 (amended): a failed network call always ends in the `error` state;
a non-OK HTTP status displays the generic connectivity message, while a
transport rejection displays the rejection error's own message (or the
generic unexpected-error fallback when the rejection value is not an
`Error`). -/
theorem C3_transport_error (s : AppState) (h : jsTrim s.url ≠ "") :
    (∀ body, (handleDownload s (.resolved false body)).state.status = .error ∧
      (handleDownload s (.resolved false body)).state.error = some connectivityMsg) ∧
    (∀ isErr m, (handleDownload s (.rejected isErr m)).state.status = .error ∧
      (handleDownload s (.rejected isErr m)).state.error =
        some (if isErr then m
              else "Unexpected error. Please try again later.")) := by
  constructor
  · intro body
    simp [handleDownload, h, applyOutcome, catchState]
  · intro isErr m
    simp [handleDownload, h, applyOutcome, catchState]

/-- C3 witness: a non-OK HTTP status, run concretely. -/
theorem C3_transport_error_witness :
    jsTrim "x" ≠ "" ∧
    ((handleDownload ⟨"x", .idle, none, none⟩
        (.resolved false (.parsed ⟨0, "", none⟩))).state.status = .error ∧
     (handleDownload ⟨"x", .idle, none, none⟩
        (.resolved false (.parsed ⟨0, "", none⟩))).state.error = some connectivityMsg) :=
  ⟨by decide,
    (C3_transport_error ⟨"x", .idle, none, none⟩ (by decide)).1 (.parsed ⟨0, "", none⟩)⟩

/-- C4: for every fetched response whose body has `code ≠ 0`, the UI ends in
the `error` state displaying the response's `msg`, or the generic
"unable to fetch" fallback when `msg` is empty. -/
theorem C4_api_failure (s : AppState) (payload : TikTokResponse)
    (hurl : jsTrim s.url ≠ "") (hcode : payload.code ≠ 0) :
    (handleDownload s (.resolved true (.parsed payload))).state.status = .error ∧
    (handleDownload s (.resolved true (.parsed payload))).state.error =
      some (if payload.msg = "" then unableMsg else payload.msg) := by
  simp [handleDownload, hurl, applyOutcome, hcode, catchState, jsOr]

/-- C4 witness: the spec's "Video not found" scenario, run concretely. -/
theorem C4_api_failure_witness :
    jsTrim "x" ≠ "" ∧ (1 : Int) ≠ 0 ∧
    ((handleDownload ⟨"x", .idle, none, none⟩
        (.resolved true (.parsed ⟨1, "Video not found", none⟩))).state.status = .error ∧
     (handleDownload ⟨"x", .idle, none, none⟩
        (.resolved true (.parsed ⟨1, "Video not found", none⟩))).state.error =
       some (if ("Video not found" : String) = "" then unableMsg else "Video not found")) :=
  ⟨by decide, by decide,
    C4_api_failure ⟨"x", .idle, none, none⟩ ⟨1, "Video not found", none⟩
      (by decide) (by decide)⟩

/-- C5 counterexample: for the input " a " (non-empty after trimming) the
issued URL carries the trimmed input percent-encoded (`url=a`), not the raw
input percent-encoded (`url=%20a%20`). -/
theorem C5_raw_counterexample :
    (handleDownload ⟨" a ", .idle, none, none⟩ (.rejected true "")).requests =
      [API_ENDPOINT ++ "?url=" ++ "a"] ∧
    API_ENDPOINT ++ "?url=" ++ "a" ≠
      API_ENDPOINT ++ "?url=" ++ encodeURIComponent " a " := by
  decide

/-- C5 (amended): for every input that is non-empty after trimming, submit
issues exactly one GET request, whose URL is the fixed endpoint followed by
a `url` query parameter equal to the trimmed input percent-encoded. -/
theorem C5_one_request (s : AppState) (o : FetchOutcome) (h : jsTrim s.url ≠ "") :
    (handleDownload s o).requests =
      [API_ENDPOINT ++ "?url=" ++ encodeURIComponent (jsTrim s.url)] := by
  simp [handleDownload, h, requestUrl]

/-- C5 witness: a concrete link, run concretely. -/
theorem C5_one_request_witness :
    jsTrim "https://a/b" ≠ "" ∧
    (handleDownload ⟨"https://a/b", .idle, none, none⟩ (.rejected true "")).requests =
      [API_ENDPOINT ++ "?url=" ++ encodeURIComponent (jsTrim "https://a/b")] :=
  ⟨by decide,
    C5_one_request ⟨"https://a/b", .idle, none, none⟩ (.rejected true "") (by decide)⟩

/-- The try/catch body never leaves the status at `loading`. -/
theorem applyOutcome_status_ne_loading (s : AppState) (o : FetchOutcome) :
    (applyOutcome s o).status ≠ .loading := by
  rcases applyOutcome_shape s o with ⟨h1, _⟩ | ⟨h1, _⟩ <;> rw [h1] <;> decide

/-- C6 counterexample: submitting an empty input from `idle` is a transition
caused by a form submission that goes to `error`, not to `loading`, so the
claimed dichotomy of transitions fails at this step. -/
theorem C6_step_counterexample :
    Step initState (emptyInputState initState) ∧
    initState.status ≠ (emptyInputState initState).status ∧
    ¬ (((initState.status = .idle ∨ initState.status = .error ∨
          initState.status = .success) ∧
        (emptyInputState initState).status = .loading) ∨
       (initState.status = .loading ∧
        ((emptyInputState initState).status = .success ∨
         (emptyInputState initState).status = .error))) :=
  ⟨Step.submitEmpty initState (by decide) rfl, by decide, by decide⟩

/-- C6 (amended): every status-changing transition is either caused by a
form submission from `idle`, `error` or `success` and goes to `loading`
(non-empty trimmed input) or directly to `error` (empty trimmed input), or
is caused by the outcome of the in-flight call and goes from `loading` to
`success` or `error`. -/
theorem C6_transitions (s t : AppState) (hstep : Step s t)
    (hchange : s.status ≠ t.status) :
    ((s.status = .idle ∨ s.status = .error ∨ s.status = .success) ∧
      ((jsTrim s.url ≠ "" ∧ t.status = .loading) ∨
       (jsTrim s.url = "" ∧ t.status = .error))) ∨
    (s.status = .loading ∧ (t.status = .success ∨ t.status = .error)) := by
  cases hstep with
  | setUrl v h => exact absurd rfl hchange
  | submitEmpty h he =>
    exact Or.inl ⟨status_ne_loading_cases s.status h, Or.inr ⟨he, rfl⟩⟩
  | submitLoad h hne =>
    exact Or.inl ⟨status_ne_loading_cases s.status h, Or.inl ⟨hne, rfl⟩⟩
  | outcome o h =>
    refine Or.inr ⟨h, ?_⟩
    rcases applyOutcome_shape s o with ⟨h1, _⟩ | ⟨h1, _⟩
    · exact Or.inr h1
    · exact Or.inl h1

/-- C6 witness: the empty-input submission step, run concretely. -/
theorem C6_transitions_witness :
    Step initState (emptyInputState initState) ∧
    initState.status ≠ (emptyInputState initState).status ∧
    (((initState.status = .idle ∨ initState.status = .error ∨
        initState.status = .success) ∧
      ((jsTrim initState.url ≠ "" ∧ (emptyInputState initState).status = .loading) ∨
       (jsTrim initState.url = "" ∧ (emptyInputState initState).status = .error))) ∨
     (initState.status = .loading ∧
      ((emptyInputState initState).status = .success ∨
       (emptyInputState initState).status = .error))) :=
  ⟨Step.submitEmpty initState (by decide) rfl, by decide,
    C6_transitions initState (emptyInputState initState)
      (Step.submitEmpty initState (by decide) rfl) (by decide)⟩

/-- C7 counterexample: the state reached by submitting "x" and having the
fetch reject with an `Error` whose message is empty is an `error` state
whose message is the empty string, so `error` does not always carry a
non-empty message. -/
theorem C7_empty_message_counterexample :
    Reachable ⟨"x", .error, some "", none⟩ ∧
    (⟨"x", .error, some "", none⟩ : AppState).status = .error ∧
    (⟨"x", .error, some "", none⟩ : AppState).error = some "" ∧
    ¬ ∃ m, (⟨"x", .error, some "", none⟩ : AppState).error = some m ∧ m ≠ "" := by
  refine ⟨?_, rfl, rfl, ?_⟩
  · exact Reachable.step _ _
      (Reachable.step _ _
        (Reachable.step _ _ Reachable.init (Step.setUrl initState "x" (by decide)))
        (Step.submitLoad _ (by decide) (by decide)))
      (Step.outcome _ (.rejected true "") rfl)
  · rintro ⟨m, hm, hne⟩
    simp only [Option.some.injEq] at hm
    exact hne hm.symm

/-- C7 (amended): in every reachable state exactly one of the four statuses
is active; `error` always carries a message (which can be the empty string
only when a caught rejection's own `Error` message was empty); `success`
always carries a stored record with a non-empty play URL. -/
theorem C7_reachable_invariant (s : AppState) (h : Reachable s) :
    (s.status = .idle ∨ s.status = .loading ∨ s.status = .success ∨
      s.status = .error) ∧
    (s.status = .error → s.error.isSome) ∧
    (s.status = .success → ∃ d, s.videoData = some d ∧ d.play ≠ "") := by
  induction h with
  | init => simp [initState]
  | step s t hs hstep ih =>
    refine ⟨by cases t.status <;> simp, ?_, ?_⟩
    · cases hstep with
      | setUrl v h => exact ih.2.1
      | submitEmpty h he => intro _; simp [emptyInputState]
      | submitLoad h hne => intro hc; simp [loadingState] at hc
      | outcome o h =>
        intro hc
        rcases applyOutcome_shape s o with ⟨h1, h2⟩ | ⟨h1, h2⟩
        · exact h2
        · rw [h1] at hc; cases hc
    · cases hstep with
      | setUrl v h => exact ih.2.2
      | submitEmpty h he => intro hc; simp [emptyInputState] at hc
      | submitLoad h hne => intro hc; simp [loadingState] at hc
      | outcome o h =>
        intro hc
        rcases applyOutcome_shape s o with ⟨h1, h2⟩ | ⟨h1, h2⟩
        · rw [h1] at hc; cases hc
        · exact h2

/-- C7 witness: the invariant at the initial state. -/
theorem C7_reachable_invariant_witness :
    Reachable initState ∧
    ((initState.status = .idle ∨ initState.status = .loading ∨
        initState.status = .success ∨ initState.status = .error) ∧
     (initState.status = .error → initState.error.isSome) ∧
     (initState.status = .success →
        ∃ d, initState.videoData = some d ∧ d.play ≠ "")) :=
  ⟨Reachable.init, C7_reachable_invariant initState Reachable.init⟩

/-- C8: for every non-empty (after trimming) input, the handler routes
through the pre-fetch state, which has status `loading` and cleared error
and media record; the network outcome is then applied to that state. -/
theorem C8_loading_clears (s : AppState) (o : FetchOutcome)
    (h : jsTrim s.url ≠ "") :
    handleDownload s o =
      { state := applyOutcome (loadingState s) o,
        requests := [requestUrl s.url] } ∧
    (loadingState s).status = .loading ∧
    (loadingState s).error = none ∧
    (loadingState s).videoData = none := by
  simp [handleDownload, h, loadingState]

/-- C8 witness: a submission over a stale success state, run concretely. -/
theorem C8_loading_clears_witness :
    jsTrim "a" ≠ "" ∧
    (handleDownload ⟨"a", .success, some "old", some ⟨"p", "t", ⟨"n"⟩, "c"⟩⟩
        (.rejected true "") =
      { state := applyOutcome
          (loadingState ⟨"a", .success, some "old", some ⟨"p", "t", ⟨"n"⟩, "c"⟩⟩)
          (.rejected true ""),
        requests := [requestUrl "a"] } ∧
     (loadingState ⟨"a", .success, some "old", some ⟨"p", "t", ⟨"n"⟩, "c"⟩⟩).status
        = .loading ∧
     (loadingState ⟨"a", .success, some "old", some ⟨"p", "t", ⟨"n"⟩, "c"⟩⟩).error
        = none ∧
     (loadingState ⟨"a", .success, some "old", some ⟨"p", "t", ⟨"n"⟩, "c"⟩⟩).videoData
        = none) :=
  ⟨by decide,
    C8_loading_clears ⟨"a", .success, some "old", some ⟨"p", "t", ⟨"n"⟩, "c"⟩⟩
      (.rejected true "") (by decide)⟩

/-- C9: every run of the submission handler ends in `success` or in `error`
with a message set, never stuck at `loading`: all failure modes are caught
and normalized, and the UI stays interactive. -/
theorem C9_no_crash (s : AppState) (o : FetchOutcome) :
    ((handleDownload s o).state.status = .success ∨
     ((handleDownload s o).state.status = .error ∧
       (handleDownload s o).state.error.isSome)) ∧
    (handleDownload s o).state.status ≠ .loading := by
  unfold handleDownload
  split
  · exact ⟨Or.inr ⟨rfl, by simp [emptyInputState]⟩, by simp [emptyInputState]⟩
  · rcases applyOutcome_shape (loadingState s) o with ⟨h1, h2⟩ | ⟨h1, _⟩
    · exact ⟨Or.inr ⟨h1, h2⟩, applyOutcome_status_ne_loading _ _⟩
    · exact ⟨Or.inl h1, applyOutcome_status_ne_loading _ _⟩

/-- C10: an empty (after trimming) submission leaves the input text and the
stored media record untouched; only the status and the error message change. -/
theorem C10_validation_frame (s : AppState) (o : FetchOutcome)
    (h : ∀ c ∈ s.url.data, jsWhitespace c) :
    (handleDownload s o).state.url = s.url ∧
    (handleDownload s o).state.videoData = s.videoData ∧
    (handleDownload s o).state.status = .error ∧
    (handleDownload s o).state.error = some "Please paste a TikTok link." ∧
    (handleDownload s o).requests = [] := by
  have he : jsTrim s.url = "" := jsTrim_eq_empty_of_allWhitespace s.url h
  simp [handleDownload, he, emptyInputState, emptyInputMsg]

/-- C10 witness: a whitespace-only submission over a stale success state,
run concretely. -/
theorem C10_validation_frame_witness :
    (∀ c ∈ ("  " : String).data, jsWhitespace c) ∧
    ((handleDownload ⟨"  ", .success, some "old", some ⟨"p", "t", ⟨"n"⟩, "c"⟩⟩
        (.rejected true "x")).state.url = "  " ∧
     (handleDownload ⟨"  ", .success, some "old", some ⟨"p", "t", ⟨"n"⟩, "c"⟩⟩
        (.rejected true "x")).state.videoData = some ⟨"p", "t", ⟨"n"⟩, "c"⟩ ∧
     (handleDownload ⟨"  ", .success, some "old", some ⟨"p", "t", ⟨"n"⟩, "c"⟩⟩
        (.rejected true "x")).state.status = .error ∧
     (handleDownload ⟨"  ", .success, some "old", some ⟨"p", "t", ⟨"n"⟩, "c"⟩⟩
        (.rejected true "x")).state.error = some "Please paste a TikTok link." ∧
     (handleDownload ⟨"  ", .success, some "old", some ⟨"p", "t", ⟨"n"⟩, "c"⟩⟩
        (.rejected true "x")).requests = []) :=
  ⟨by decide,
    C10_validation_frame ⟨"  ", .success, some "old", some ⟨"p", "t", ⟨"n"⟩, "c"⟩⟩
      (.rejected true "x") (by decide)⟩

end Tikop
